import Mathlib

/-!
Verification development for the `digiheadway/sales-crm` front-end data layer
(`src/contexts/AppContext.tsx` and the divergent provider variant shipped in the
repository).  The TypeScript code is shallowly embedded: React `useRef`/`useState`
cells become explicit state records, remote calls become explicit response
parameters, and JavaScript primitives (`parseInt`, `JSON.parse`, `JSON.stringify`,
truthiness, loose equality) are modelled by executable Lean functions below.
-/

namespace SalesCRM

/-! ## JavaScript primitive semantics -/

/-- Truthiness of an optional string value (`undefined` and `""` are falsy). -/
def jsTruthy (o : Option String) : Bool :=
  match o with
  | some s => s ≠ ""
  | none => false

/-- JavaScript `a || b` on optional strings (first operand when truthy). -/
def jsOr (a b : Option String) : Option String :=
  if jsTruthy a then a else b

/-- JavaScript `a || d` where the fallback `d` is a plain string. -/
def jsOrD (a : Option String) (d : String) : String :=
  match a with
  | some s => if s = "" then d else s
  | none => d

/-- Helper for `splitComma`: accumulates the current segment (reversed). -/
def splitCommaChars : List Char → List Char → List String
  | [], acc => [String.mk acc.reverse]
  | ',' :: rest, acc => String.mk acc.reverse :: splitCommaChars rest []
  | c :: rest, acc => splitCommaChars rest (c :: acc)

/-- JavaScript `s.split(",")`: cut at every comma, keeping empty segments. -/
def splitComma (s : String) : List String :=
  splitCommaChars s.data []

/-- Value of a decimal digit character. -/
def digitVal (c : Char) : Nat := c.toNat - '0'.toNat

/-- Accumulate a list of decimal digit characters into a natural number. -/
def natOfDigits (cs : List Char) : Nat :=
  cs.foldl (fun acc c => 10 * acc + digitVal c) 0

/-- Value of a hexadecimal digit character. -/
def hexVal (c : Char) : Nat :=
  if c.isDigit then c.toNat - '0'.toNat
  else if 'a' ≤ c ∧ c ≤ 'f' then c.toNat - 'a'.toNat + 10
  else c.toNat - 'A'.toNat + 10

/-- Is the character a hexadecimal digit? -/
def isHexDigit (c : Char) : Bool :=
  c.isDigit || ('a' ≤ c && c ≤ 'f') || ('A' ≤ c && c ≤ 'F')

/-- Accumulate hexadecimal digit characters into a natural number. -/
def natOfHexDigits (cs : List Char) : Nat :=
  cs.foldl (fun acc c => 16 * acc + hexVal c) 0

/-- JavaScript `parseInt` on a string: skip leading whitespace, optional sign,
`0x`/`0X` switches to base 16, then the longest prefix of digits; no digits
yields `NaN`, modelled as `none`. -/
def jsParseIntStr (s : String) : Option Int :=
  let cs := s.toList.dropWhile (fun c => c.isWhitespace)
  let (sign, cs') : Int × List Char :=
    match cs with
    | '+' :: r => (1, r)
    | '-' :: r => (-1, r)
    | _ => (1, cs)
  match cs' with
  | '0' :: 'x' :: r =>
      let ds := r.takeWhile isHexDigit
      if ds = [] then none else some (sign * (natOfHexDigits ds : Int))
  | '0' :: 'X' :: r =>
      let ds := r.takeWhile isHexDigit
      if ds = [] then none else some (sign * (natOfHexDigits ds : Int))
  | _ =>
      let ds := cs'.takeWhile (fun c => c.isDigit)
      if ds = [] then none else some (sign * (natOfDigits ds : Int))

/-- JavaScript `parseInt` applied to a possibly-absent field.  `parseInt(undefined)`
parses the string `"undefined"` and yields `NaN` (`none`). -/
def jsParseInt (v : Option String) : Option Int :=
  match v with
  | none => none
  | some s => jsParseIntStr s

/-- JavaScript `Number(s)` restricted to the numeral shapes that occur on this
wire format: trimmed empty string is `0`, optional sign, decimal digits with an
optional all-zero fraction, or a `0x` hexadecimal numeral; anything else is
`NaN` (`none`).  (Exponent forms and non-zero fractions are not integers and
are collapsed to `none`; they can never compare loosely equal to `1`, the only
use made of this function.) -/
def jsToNumber (s : String) : Option Int :=
  let cs := s.toList.dropWhile (fun c => c.isWhitespace)
  let cs := (cs.reverse.dropWhile (fun c => c.isWhitespace)).reverse
  if cs = [] then some 0
  else
    let (sign, cs') : Int × List Char :=
      match cs with
      | '+' :: r => (1, r)
      | '-' :: r => (-1, r)
      | _ => (1, cs)
    match cs' with
    | '0' :: 'x' :: r =>
        if r ≠ [] ∧ r.all isHexDigit then some (sign * (natOfHexDigits r : Int)) else none
    | _ =>
        let ds := cs'.takeWhile (fun c => c.isDigit)
        let rest := cs'.dropWhile (fun c => c.isDigit)
        if ds = [] then none
        else
          match rest with
          | [] => some (sign * (natOfDigits ds : Int))
          | '.' :: fr =>
              if fr.all (fun c => c = '0') then some (sign * (natOfDigits ds : Int)) else none
          | _ => none

/-- The loose-equality test `v == 1` used for `is_in_pipeline`: an absent field is
not loosely equal to `1`; a string is converted with `Number` and compared. -/
def jsLooseEqOne (v : Option String) : Bool :=
  match v with
  | none => false
  | some s => jsToNumber s == some 1

/-! ## JSON values, `JSON.parse` and `JSON.stringify` -/

/-- A JSON value.  Number literals keep their source text so that parsing and
re-serialization are faithful without a float model. -/
inductive Json where
  | null : Json
  | bool (b : Bool) : Json
  | num (lit : String) : Json
  | str (s : String) : Json
  | arr (xs : List Json) : Json
  | obj (fs : List (String × Json)) : Json

/-- `JSON.stringify` quoting of a plain string.  (The strings appearing in this
development contain no characters that require escaping.) -/
def jsStr (s : String) : String := "\"" ++ s ++ "\""

mutual

/-- `JSON.stringify` of a JSON value. -/
def Json.serialize : Json → String
  | .null => "null"
  | .bool b => cond b "true" "false"
  | .num lit => lit
  | .str s => jsStr s
  | .arr xs => "[" ++ String.intercalate "," (Json.serializeArr xs) ++ "]"
  | .obj fs => "\x7b" ++ String.intercalate "," (Json.serializeObj fs) ++ "\x7d"

/-- Serialize the elements of a JSON array. -/
def Json.serializeArr : List Json → List String
  | [] => []
  | j :: js => Json.serialize j :: Json.serializeArr js

/-- Serialize the fields of a JSON object. -/
def Json.serializeObj : List (String × Json) → List String
  | [] => []
  | (k, j) :: js => (jsStr k ++ ":" ++ Json.serialize j) :: Json.serializeObj js

end

/-- JSON whitespace skipping. -/
def skipWs (cs : List Char) : List Char :=
  cs.dropWhile (fun c => c = ' ' ∨ c = '\t' ∨ c = '\n' ∨ c = '\r')

/-- Decoding of a JSON string escape character. -/
def escChar (c : Char) : Option Char :=
  if c = '"' then some '"'
  else if c = '\\' then some '\\'
  else if c = '/' then some '/'
  else if c = 'n' then some '\n'
  else if c = 't' then some '\t'
  else if c = 'r' then some '\r'
  else if c = 'b' then some (Char.ofNat 8)
  else if c = 'f' then some (Char.ofNat 12)
  else none

/-- Parse the body of a JSON string literal (after the opening quote) up to the
closing quote.  `\u` escapes are not used on this wire format and fail. -/
def parseStringChars : List Char → Option (List Char × List Char)
  | [] => none
  | '"' :: rest => some ([], rest)
  | '\\' :: c :: rest => do
      let e ← escChar c
      let (s, r) ← parseStringChars rest
      some (e :: s, r)
  | c :: rest => do
      let (s, r) ← parseStringChars rest
      some (c :: s, r)

/-- Parse a JSON number literal, returning its source text. -/
def parseNumLit (cs : List Char) : Option (String × List Char) :=
  let (sign, cs') : List Char × List Char :=
    match cs with
    | '-' :: r => (['-'], r)
    | _ => ([], cs)
  let ds := cs'.takeWhile (fun c => c.isDigit)
  let rest := cs'.dropWhile (fun c => c.isDigit)
  if ds = [] then none
  else
    match rest with
    | '.' :: fr =>
        let fs := fr.takeWhile (fun c => c.isDigit)
        let rest' := fr.dropWhile (fun c => c.isDigit)
        if fs = [] then none
        else some (String.mk (sign ++ ds ++ '.' :: fs), rest')
    | _ => some (String.mk (sign ++ ds), rest)

/-- The `{` character (written via its code point to keep string literals plain). -/
def lbrace : Char := Char.ofNat 123

/-- The `}` character. -/
def rbrace : Char := Char.ofNat 125

mutual

/-- Fuelled parser for a JSON value. -/
def parseJ : Nat → List Char → Option (Json × List Char)
  | 0, _ => none
  | Nat.succ fuel, cs0 =>
    match skipWs cs0 with
    | 'n' :: 'u' :: 'l' :: 'l' :: r => some (.null, r)
    | 't' :: 'r' :: 'u' :: 'e' :: r => some (.bool true, r)
    | 'f' :: 'a' :: 'l' :: 's' :: 'e' :: r => some (.bool false, r)
    | '"' :: r => do
        let (s, rest) ← parseStringChars r
        some (.str (String.mk s), rest)
    | '[' :: r =>
        (match skipWs r with
         | ']' :: rest => some (.arr [], rest)
         | r' => do
             let (xs, rest) ← parseJArr fuel r'
             some (.arr xs, rest))
    | c :: r =>
        if c = lbrace then
          match skipWs r with
          | d :: rest =>
              if d = rbrace then some (.obj [], rest)
              else do
                let (fs, rest') ← parseJObj fuel (d :: rest)
                some (.obj fs, rest')
          | [] => none
        else do
          let (lit, rest) ← parseNumLit (c :: r)
          some (.num lit, rest)
    | [] => none

/-- Fuelled parser for the non-empty element list of a JSON array. -/
def parseJArr : Nat → List Char → Option (List Json × List Char)
  | 0, _ => none
  | Nat.succ fuel, cs => do
      let (j, rest) ← parseJ fuel cs
      match skipWs rest with
      | ',' :: r => do
          let (js, rest') ← parseJArr fuel r
          some (j :: js, rest')
      | ']' :: r => some ([j], r)
      | _ => none

/-- Fuelled parser for the non-empty field list of a JSON object. -/
def parseJObj : Nat → List Char → Option (List (String × Json) × List Char)
  | 0, _ => none
  | Nat.succ fuel, cs =>
      match skipWs cs with
      | '"' :: r => do
          let (k, rest) ← parseStringChars r
          match skipWs rest with
          | ':' :: r' => do
              let (v, rest') ← parseJ fuel r'
              match skipWs rest' with
              | ',' :: r'' => do
                  let (fs, rest'') ← parseJObj fuel r''
                  some ((String.mk k, v) :: fs, rest'')
              | d :: r'' =>
                  if d = rbrace then some ([(String.mk k, v)], r'')
                  else none
              | [] => none
          | _ => none
      | _ => none

end

/-- `JSON.parse`: parse a complete JSON document; trailing garbage is an error. -/
def jsonParse (s : String) : Option Json :=
  match parseJ (2 * s.length + 16) s.toList with
  | some (j, rest) => if skipWs rest = [] then some j else none
  | none => none

/-! ## Option Mapper

Modelled from the spec: the catalog module `src/data/options` is imported by the
provider but is not among the provided sources, so its shape and the two lookup
functions are reconstructed from spec §4.1. -/

/-- Modelled from the spec: an option couples an internal value, a display
label, and a wire-level `apiValue`. -/
structure Opt where
  value : String
  label : String
  apiValue : String
deriving DecidableEq, Repr

/-- Modelled from the spec: §4.1 forward mapping — look the internal value up in
the option set and return its wire representation; unknown values pass through
unchanged. -/
def getApiValue (opts : List Opt) (v : String) : String :=
  match opts.find? (fun o => o.value == v) with
  | some o => o.apiValue
  | none => v

/-- Modelled from the spec: §4.1 reverse mapping — search the option set for an
entry whose wire representation equals the given raw value; an absent raw value
matches no entry. -/
def getOptionByApiValue (opts : List Opt) (raw : Option String) : Option Opt :=
  match raw with
  | some r => opts.find? (fun o => o.apiValue == r)
  | none => none

/-! ## Entity Transformer (`transformApiLeadToLead`, AppContext.tsx lines 143-198)

A raw API record is a JSON object of string-valued fields as produced by the PHP
backend; an absent field is `none`.  The stage and priority catalogs are passed
as parameters, mirroring the module imports of the source file. -/

/-- A raw lead record from the fetch API. -/
structure ApiRecord where
  id : Option String := none
  name : Option String := none
  phone : Option String := none
  alter_contact : Option String := none
  alternative_contact_details : Option String := none
  alternate_phone : Option String := none
  address : Option String := none
  about : Option String := none
  about_him : Option String := none
  note : Option String := none
  budget : Option String := none
  stage : Option String := none
  priority : Option String := none
  custom_fields : Option String := none
  is_in_pipeline : Option String := none
  labels : Option String := none
  requirement : Option String := none
  listname : Option String := none
  source : Option String := none
  type : Option String := none
  assignd_to : Option String := none
  admin_id : Option String := none
  email : Option String := none
  lead_scrore : Option String := none
  last_note : Option String := none
  created_at : Option String := none
  updated_at : Option String := none

/-- The UI-facing `Lead` shape produced by the transformer.  `id : Option Int`
models the JavaScript number with `none` standing for `NaN` (the result of
`parseInt` on a non-numeric `id`, which the source does not default). -/
structure Lead where
  id : Option Int
  isInPipeline : Bool
  name : String
  phone : String
  alternatePhone : String
  address : String
  labels : List String
  stage : String
  priority : String
  requirement : String
  budget : Int
  about : String
  note : String
  listName : String
  source : String
  customFields : Json
  type : String
  assignedTo : String
  adminId : Int
  email : String
  leadScore : Int
  lastNote : String
  createdAt : Option String
  updatedAt : Option String

/-- Embedding of `transformApiLeadToLead` (AppContext.tsx lines 143-198). -/
def transformApiLeadToLead (stageOptions priorityOptions : List Opt)
    (apiLead : ApiRecord) : Lead :=
  let id := jsParseInt apiLead.id
  let name := jsOrD apiLead.name ""
  let phone := jsOrD apiLead.phone ""
  let alternatePhone :=
    jsOrD (jsOr apiLead.alter_contact
      (jsOr apiLead.alternative_contact_details apiLead.alternate_phone)) ""
  let address := jsOrD apiLead.address ""
  let about := jsOrD (jsOr apiLead.about apiLead.about_him) ""
  let note := jsOrD apiLead.note ""
  let budget := (jsParseInt apiLead.budget).getD 0
  let stage :=
    match apiLead.stage with
    | some s =>
        if stageOptions.any (fun o => o.value == s) then s
        else jsOrD ((getOptionByApiValue stageOptions (some s)).map (fun o => o.value)) "Fresh Lead"
    | none => jsOrD ((getOptionByApiValue stageOptions none).map (fun o => o.value)) "Fresh Lead"
  let priority :=
    match apiLead.priority with
    | some s =>
        if priorityOptions.any (fun o => o.value == s) then s
        else jsOrD ((getOptionByApiValue priorityOptions (some s)).map (fun o => o.value)) "General"
    | none => jsOrD ((getOptionByApiValue priorityOptions none).map (fun o => o.value)) "General"
  let customFields :=
    match apiLead.custom_fields with
    | some s => if s = "" then Json.obj [] else (jsonParse s).getD (Json.obj [])
    | none => Json.obj []
  { id := id
    isInPipeline := jsLooseEqOne apiLead.is_in_pipeline
    name := name
    phone := phone
    alternatePhone := alternatePhone
    address := address
    labels :=
      match apiLead.labels with
      | some s => if s = "" then [] else splitComma s
      | none => []
    stage := stage
    priority := priority
    requirement := jsOrD apiLead.requirement ""
    budget := budget
    about := about
    note := note
    listName := jsOrD apiLead.listname ""
    source := jsOrD apiLead.source "Other"
    customFields := customFields
    type := jsOrD apiLead.type "lead"
    assignedTo := jsOrD apiLead.assignd_to ""
    adminId := (jsParseInt apiLead.admin_id).getD 0
    email := jsOrD apiLead.email ""
    leadScore := (jsParseInt apiLead.lead_scrore).getD 0
    lastNote := jsOrD apiLead.last_note ""
    createdAt := apiLead.created_at
    updatedAt := apiLead.updated_at }

/-! ### Value-level generalization of the transformer

`apiLead` is typed `any` in the source, so a field of the decoded JSON body
may also hold a number, a boolean, `null`, or another object.  The
definitions below re-embed `transformApiLeadToLead` over such values to
settle what the function does on fields of unexpected type: every access is
coercion-safe except `apiLead.labels.split(",")` (line 179), which throws a
TypeError when `labels` is truthy but not a string.  The `Option String`
embedding above is the restriction of this one to string-valued wire
records. -/

/-- A JSON-decoded JavaScript value held by a field of the raw record:
a string, a number, a boolean, `null`, or a (structurally irrelevant,
string-method-free) object. -/
inductive ApiValue where
  | str (s : String)
  | num (n : Int)
  | bool (b : Bool)
  | null
  | obj
deriving DecidableEq, Repr

/-- JavaScript `String(value)` on the values above (`[object Object]` for a
plain object). -/
def ApiValue.toJsString : ApiValue → String
  | .str s => s
  | .num n => toString n
  | .bool b => cond b "true" "false"
  | .null => "null"
  | .obj => "[object Object]"

/-- JavaScript truthiness of a value. -/
def ApiValue.truthy : ApiValue → Bool
  | .str s => s != ""
  | .num n => n != 0
  | .bool b => b
  | .null => false
  | .obj => true

/-- Truthiness of a possibly-absent value. -/
def jsTruthyV (o : Option ApiValue) : Bool :=
  match o with
  | some v => v.truthy
  | none => false

/-- JavaScript `a || b` on possibly-absent values. -/
def jsOrV (a b : Option ApiValue) : Option ApiValue :=
  if jsTruthyV a then a else b

/-- JavaScript `a || d` with a plain default: the raw value survives when
truthy (JavaScript performs no string coercion here). -/
def jsOrDV (a : Option ApiValue) (d : ApiValue) : ApiValue :=
  match a with
  | some v => if v.truthy then v else d
  | none => d

/-- JavaScript `parseInt(value)`: the argument is coerced with `String(...)`
and then parsed; `none` is `NaN`. -/
def jsParseIntV (v : Option ApiValue) : Option Int :=
  match v with
  | none => none
  | some a => jsParseIntStr a.toJsString

/-- The loose-equality test `value == 1`: `true == 1` holds (`Number(true)` is
1), `null` and objects are not loosely equal to 1, strings convert with
`Number`. -/
def looseEqOneV : Option ApiValue → Bool
  | none => false
  | some (.str s) => jsToNumber s == some 1
  | some (.num n) => n == 1
  | some (.bool b) => b
  | some .null => false
  | some .obj => false

/-- The enum resolution of lines 153-161 over an arbitrary value: the
`opt.value === stage` membership test and the `getOptionByApiValue` reverse
lookup compare with `===`, which a non-string value never satisfies against
the catalog's string entries, so every non-string (and absent) value takes
the fallback. -/
def resolveEnumV (opts : List Opt) (v : Option ApiValue) (fallback : String) : String :=
  match v with
  | some (.str s) =>
      if opts.any (fun o => o.value == s) then s
      else jsOrD ((opts.find? (fun o => o.apiValue == s)).map (fun o => o.value)) fallback
  | _ => fallback

/-- `apiLead.labels ? apiLead.labels.split(",") : []` (line 179): a truthy
non-string has no `.split` method — the expression throws a TypeError. -/
def labelsSplitV : Option ApiValue → Except String (List String)
  | none => .ok []
  | some v =>
      if v.truthy then
        match v with
        | .str s => .ok (splitComma s)
        | _ => .error "TypeError: apiLead.labels.split is not a function"
      else .ok []

/-- A raw lead record whose fields are arbitrary decoded JSON values. -/
structure ApiRecordV where
  id : Option ApiValue := none
  name : Option ApiValue := none
  phone : Option ApiValue := none
  alter_contact : Option ApiValue := none
  alternative_contact_details : Option ApiValue := none
  alternate_phone : Option ApiValue := none
  address : Option ApiValue := none
  about : Option ApiValue := none
  about_him : Option ApiValue := none
  note : Option ApiValue := none
  budget : Option ApiValue := none
  stage : Option ApiValue := none
  priority : Option ApiValue := none
  custom_fields : Option ApiValue := none
  is_in_pipeline : Option ApiValue := none
  labels : Option ApiValue := none
  requirement : Option ApiValue := none
  listname : Option ApiValue := none
  source : Option ApiValue := none
  type : Option ApiValue := none
  assignd_to : Option ApiValue := none
  admin_id : Option ApiValue := none
  email : Option ApiValue := none
  lead_scrore : Option ApiValue := none
  last_note : Option ApiValue := none
  created_at : Option ApiValue := none
  updated_at : Option ApiValue := none

/-- The object the transformer returns when fed arbitrary values: the
`||`-defaulted text fields keep the raw truthy value (JavaScript does not
coerce them), stage and priority always resolve to a string, numeric fields
parse as before, and `createdAt`/`updatedAt` pass through raw. -/
structure LeadV where
  id : Option Int
  isInPipeline : Bool
  name : ApiValue
  phone : ApiValue
  alternatePhone : ApiValue
  address : ApiValue
  labels : List String
  stage : String
  priority : String
  requirement : ApiValue
  budget : Int
  about : ApiValue
  note : ApiValue
  listName : ApiValue
  source : ApiValue
  customFields : Json
  type : ApiValue
  assignedTo : ApiValue
  adminId : Int
  email : ApiValue
  leadScore : Int
  lastNote : ApiValue
  createdAt : Option ApiValue
  updatedAt : Option ApiValue

/-- Embedding of `transformApiLeadToLead` (lines 143-198) over arbitrary
field values.  The only statement that can throw is the labels split in the
returned object literal; everything before it is coercion-safe, so the
function either throws that TypeError or returns the assembled record. -/
def transformApiLeadToLeadV (stageOptions priorityOptions : List Opt)
    (apiLead : ApiRecordV) : Except String LeadV :=
  let id := jsParseIntV apiLead.id
  let name := jsOrDV apiLead.name (.str "")
  let phone := jsOrDV apiLead.phone (.str "")
  let alternatePhone :=
    jsOrDV (jsOrV apiLead.alter_contact
      (jsOrV apiLead.alternative_contact_details apiLead.alternate_phone)) (.str "")
  let address := jsOrDV apiLead.address (.str "")
  let about := jsOrDV (jsOrV apiLead.about apiLead.about_him) (.str "")
  let note := jsOrDV apiLead.note (.str "")
  let budget := (jsParseIntV apiLead.budget).getD 0
  let stage := resolveEnumV stageOptions apiLead.stage "Fresh Lead"
  let priority := resolveEnumV priorityOptions apiLead.priority "General"
  let customFields :=
    match apiLead.custom_fields with
    | some v => if v.truthy then (jsonParse v.toJsString).getD (Json.obj []) else Json.obj []
    | none => Json.obj []
  match labelsSplitV apiLead.labels with
  | .error e => .error e
  | .ok labels =>
      .ok { id := id
            isInPipeline := looseEqOneV apiLead.is_in_pipeline
            name := name
            phone := phone
            alternatePhone := alternatePhone
            address := address
            labels := labels
            stage := stage
            priority := priority
            requirement := jsOrDV apiLead.requirement (.str "")
            budget := budget
            about := about
            note := note
            listName := jsOrDV apiLead.listname (.str "")
            source := jsOrDV apiLead.source (.str "Other")
            customFields := customFields
            type := jsOrDV apiLead.type (.str "lead")
            assignedTo := jsOrDV apiLead.assignd_to (.str "")
            adminId := (jsParseIntV apiLead.admin_id).getD 0
            email := jsOrDV apiLead.email (.str "")
            leadScore := (jsParseIntV apiLead.lead_scrore).getD 0
            lastNote := jsOrDV apiLead.last_note (.str "")
            createdAt := apiLead.created_at
            updatedAt := apiLead.updated_at }

/-- The `Todo` shape produced by the task transformer in `fetchTodos`
(AppContext.tsx lines 233-246); only the fields are needed here. -/
structure Todo where
  id : Option Int
  leadId : Option Int
  type : String
  description : String
  responseNote : String
  status : String
  dateTime : Option String
  participants : List String
  createdAt : Option String
  updatedAt : Option String

/-! ## Filters and the leads cache key -/

/-- A filter value is a string, a number, or a string list
(`value: string | number | string[]` in `src/types`). -/
inductive FilterValue where
  | str (s : String)
  | num (n : Int)
  | list (xs : List String)
deriving DecidableEq, Repr

/-- A `FilterOption` from `src/types`: field name, comparison operator, value. -/
structure FilterOption where
  field : String
  operator : String
  value : FilterValue
deriving DecidableEq, Repr

/-- `JSON.stringify` of a filter value. -/
def FilterValue.toJson : FilterValue → String
  | .str s => jsStr s
  | .num n => toString n
  | .list xs => "[" ++ String.intercalate "," (xs.map jsStr) ++ "]"

/-- `JSON.stringify` of a filter object, with properties in the declaration
order of the `FilterOption` interface. -/
def FilterOption.toJson (f : FilterOption) : String :=
  "\x7b\"field\":" ++ jsStr f.field ++ ",\"operator\":" ++ jsStr f.operator ++
    ",\"value\":" ++ f.value.toJson ++ "\x7d"

/-- Lexicographic "less-or-equal" on character lists; on the plain ASCII field
names used by the filters this coincides with `localeCompare` ordering. -/
def charListLe : List Char → List Char → Bool
  | [], _ => true
  | _ :: _, [] => false
  | a :: as, b :: bs =>
      if a < b then true
      else if a = b then charListLe as bs
      else false

/-- The comparator `(a, b) => a.field.localeCompare(b.field)` as a
"less-or-equal" relation on field names. -/
def fieldLeP (a b : FilterOption) : Prop :=
  charListLe a.field.data b.field.data = true

instance : DecidableRel fieldLeP :=
  fun _a _b => inferInstanceAs (Decidable (_ = true))

/-- `currentFilters.sort((a, b) => a.field.localeCompare(b.field))`:
JavaScript's sort is guaranteed stable, so it is modelled by a stable
insertion sort on the field-name comparator.  (The source sorts the array in
place; the mutation is accounted for in `fetchLeads` below.) -/
def sortFilters (fs : List FilterOption) : List FilterOption :=
  List.insertionSort fieldLeP fs

/-- `JSON.stringify` of the cache-key object (AppContext.tsx lines 281-288)
applied to an already-sorted filter list; property order follows the object
literal. -/
def cacheKeyOf (page perPage : Nat) (sortField sortOrder search : String)
    (sortedFilters : List FilterOption) : String :=
  "\x7b\"page\":" ++ toString page ++
    ",\"perPage\":" ++ toString perPage ++
    ",\"sortField\":" ++ jsStr sortField ++
    ",\"sortOrder\":" ++ jsStr sortOrder ++
    ",\"search\":" ++ jsStr search ++
    ",\"filters\":[" ++ String.intercalate "," (sortedFilters.map FilterOption.toJson) ++ "]\x7d"

/-- The cache key computed by `fetchLeads` from the effective parameters:
filters are sorted by field name before serialization. -/
def fetchCacheKey (page perPage : Nat) (sortField sortOrder search : String)
    (filters : List FilterOption) : String :=
  cacheKeyOf page perPage sortField sortOrder search (sortFilters filters)

/-! ## Request deduplication (AppContext.tsx lines 118-141)

The `activeRequests` ref is a map from request key to the in-flight promise.
Promises are represented by numeric identifiers: callers holding the same
identifier share the same pending result and therefore settle identically. -/

/-- The deduplication state: the in-flight map plus a supply of fresh promise
identifiers. -/
structure DedupState where
  inflight : List (String × Nat)
  nextId : Nat
deriving DecidableEq, Repr

/-- `activeRequests.current.get(key)` (via `has`/`get`). -/
def lookupReq (s : DedupState) (key : String) : Option Nat :=
  (s.inflight.find? (fun kv => kv.1 == key)).map (fun kv => kv.2)

/-- One synchronous entry into `makeRequest` (lines 127-141): if the key is
in-flight the existing promise is returned and no new operation starts;
otherwise `requestFn()` is invoked (a fresh promise) and registered under the
key.  The returned flag records whether the underlying operation was started. -/
def makeRequest (s : DedupState) (key : String) : DedupState × Nat × Bool :=
  match lookupReq s key with
  | some pid => (s, pid, false)
  | none =>
      ({ inflight := s.inflight ++ [(key, s.nextId)], nextId := s.nextId + 1 },
       s.nextId, true)

/-- The `.finally` handler attached in `makeRequest`: when the promise settles
— fulfilled or rejected, the outcome argument is ignored — the key is deleted
from the in-flight map. -/
def settleRequest (s : DedupState) (key : String) (_outcome : Bool) : DedupState :=
  { s with inflight := s.inflight.filter (fun kv => kv.1 != key) }

/-- `createRequestKey` (lines 122-124): the resource tag and the
`JSON.stringify` of the raw params object. -/
def createRequestKey (type : String) (paramsJson : String) : String :=
  type ++ "-" ++ paramsJson

/-! ## Provider state and `fetchLeads` -/

/-- The single-slot leads cache held in the `globalLeadsCache` ref. -/
structure CacheSlot where
  data : List Lead
  params : Option String
  timestamp : Int
  total : Option Nat

/-- The initial (empty) cache slot, also the value written by invalidation. -/
def emptyCacheSlot : CacheSlot :=
  { data := [], params := none, timestamp := 0, total := none }

/-- The provider state relevant to the claims: the in-memory collections, the
filter list, the active selection, the cache slot, and the shared error cell.
(`isLoading` toggling and the DOM broadcast event carry no persistent state and
are not modelled; the dedup map lives in `DedupState` above.) -/
structure AppState where
  leads : List Lead
  todos : List Todo
  leadFilters : List FilterOption
  activeLeadId : Option Int
  cache : CacheSlot
  error : Option String

/-- The optional parameters object accepted by `fetchLeads`; an absent property
is `none`. -/
structure FetchParams where
  page : Option Nat := none
  perPage : Option Nat := none
  sortField : Option String := none
  sortOrder : Option String := none
  search : Option String := none
  currentFilters : Option (List FilterOption) := none

/-- `JSON.stringify` of the raw params object: absent properties are omitted,
present ones appear in interface order. -/
def stringifyParams (p : FetchParams) : String :=
  let parts : List (Option String) :=
    [p.page.map (fun n => "\"page\":" ++ toString n),
     p.perPage.map (fun n => "\"perPage\":" ++ toString n),
     p.sortField.map (fun s => "\"sortField\":" ++ jsStr s),
     p.sortOrder.map (fun s => "\"sortOrder\":" ++ jsStr s),
     p.search.map (fun s => "\"search\":" ++ jsStr s),
     p.currentFilters.map (fun fs =>
       "\"currentFilters\":[" ++ String.intercalate "," (fs.map FilterOption.toJson) ++ "]")]
  "\x7b" ++ String.intercalate "," (parts.filterMap id) ++ "\x7d"

/-- The remote response seen by `fetchLeads` when it does reach the network:
the parsed body of a successful fetch (`success:true` with records and an
optional `meta.total`), a `success:false` body, or a transport/HTTP failure. -/
inductive FetchResponse where
  | ok (records : List ApiRecord) (total : Option Nat)
  | remoteFail (message : String)
  | transportFail

/-- What a `fetchLeads` caller observes. -/
inductive NetResult where
  | ok (data : List Lead) (total : Nat)
  | error (msg : String)

/-- Either the cached page was served, or a network request was issued under
the given deduplication key. -/
inductive FetchOutcome where
  | fromCache (data : List Lead) (total : Nat)
  | network (requestKey : String) (result : NetResult)

/-- Did this outcome involve a remote request? -/
def FetchOutcome.isNetwork : FetchOutcome → Bool
  | .network _ _ => true
  | .fromCache _ _ => false

/-- Embedding of `fetchLeads` (AppContext.tsx lines 261-412).  `now` is
`Date.now()`; the remote interaction is summarized by `resp`.  Note the two
source behaviours carried over exactly: (1) `currentFilters.sort(...)` sorts
the array in place, so when the filters were defaulted from state the state's
filter list comes back sorted, and when they were passed explicitly the raw
params object later serialized by `createRequestKey` holds the sorted array;
(2) the deduplication key serializes the raw params object, not the effective
parameters.  (The `URLSearchParams` query construction affects only the
request URL, not the provider state, and is not modelled.) -/
def fetchLeads (stageOptions priorityOptions : List Opt) (st : AppState)
    (p : FetchParams) (now : Int) (resp : FetchResponse) :
    AppState × FetchOutcome :=
  let page := p.page.getD 1
  let perPage := p.perPage.getD 20
  let sortField := p.sortField.getD "created_at"
  let sortOrder := p.sortOrder.getD "desc"
  let search := p.search.getD ""
  let currentFilters := p.currentFilters.getD st.leadFilters
  let sorted := sortFilters currentFilters
  -- the in-place sort: filters defaulted from state leave the state's list sorted
  let st1 := if p.currentFilters = none then { st with leadFilters := sorted } else st
  let cacheKey := cacheKeyOf page perPage sortField sortOrder search sorted
  -- the `globalLeadsCache` ref is untouched by the sort, so it is read from `st`
  if st.cache.data.length > 0 ∧ st.cache.params = some cacheKey ∧
      now - st.cache.timestamp < 2 * 60 * 1000 then
    ({ st1 with leads := st.cache.data },
     .fromCache st.cache.data (st.cache.total.getD 0))
  else
    let requestKey :=
      createRequestKey "leads"
        (stringifyParams { p with currentFilters := p.currentFilters.map sortFilters })
    match resp with
    | .ok records mtotal =>
        let transformed := records.map (transformApiLeadToLead stageOptions priorityOptions)
        let total := mtotal.getD 0
        ({ st1 with
            leads := transformed
            cache := { data := transformed, params := some cacheKey,
                       timestamp := now, total := some total }
            error := none },
         .network requestKey (.ok transformed total))
    | .remoteFail msg =>
        let m := if msg = "" then "Failed to fetch leads" else msg
        ({ st1 with error := some m }, .network requestKey (.error m))
    | .transportFail =>
        ({ st1 with error := some "Failed to fetch leads" },
         .network requestKey (.error "Failed to fetch leads"))

/-! ## Filter and cache operations -/

/-- `invalidateLeadsCache` (lines 811-822): resets the cache slot.  (It also
clears the dedup map — part of `DedupState`, not `AppState` — and fires the
`leads-cache-invalidated` DOM event unless `skipEvent` is set; the event
carries no state.) -/
def invalidateLeadsCache (st : AppState) : AppState :=
  { st with cache := emptyCacheSlot }

/-- `removeLeadFilter` (lines 755-759): `splice(index, 1)` on a copy. -/
def removeLeadFilter (st : AppState) (index : Nat) : AppState :=
  { st with leadFilters := st.leadFilters.eraseIdx index }

/-- `clearLeadFilters` in `src/src/contexts/AppContext.tsx` (lines 767-769):
empties the filter list only. -/
def clearLeadFilters (st : AppState) : AppState :=
  { st with leadFilters := [] }

/-- `clearLeadFilters` in the divergent provider variant
(`src/unnamed/part_000`, lines 880-888): empties the filter list and also
resets the `globalLeadsCache` slot. -/
def clearLeadFilters_variant (st : AppState) : AppState :=
  { st with leadFilters := [], cache := emptyCacheSlot }

/-! ## `deleteLead` (AppContext.tsx lines 608-628) -/

/-- The remote response to a modify request: parsed `success:true`,
`success:false` with a message, or a transport failure. -/
inductive ModifyResponse where
  | ok
  | fail (message : String)
  | transportFail

/-- Embedding of `deleteLead`: on `success` the lead is filtered out of the
leads collection, every todo referencing it is filtered out, and the active
selection is cleared when it pointed at the deleted id; a reported failure or
a transport error only shows a toast and leaves the state untouched. -/
def deleteLead (st : AppState) (id : Int) (resp : ModifyResponse) : AppState :=
  match resp with
  | .ok =>
      { st with
          leads := st.leads.filter (fun l => l.id != some id)
          todos := st.todos.filter (fun t => t.leadId != some id)
          activeLeadId := if st.activeLeadId = some id then none else st.activeLeadId }
  | .fail _ => st
  | .transportFail => st

/-! ## `updateLead` (AppContext.tsx lines 504-606)

`Object.entries(leadUpdate)` iterates the supplied fields generically, so the
partial update is embedded as an association list of JavaScript values. -/

/-- A JavaScript value as it occurs in a `Partial<Lead>` entry or a `Lead`
property.  `nan` is the `NaN` number; `obj` carries an identity token (for
`===`, which compares object references) together with its JSON content (for
`JSON.stringify`). -/
inductive JsValue where
  | undefined
  | nan
  | str (s : String)
  | num (n : Int)
  | bool (b : Bool)
  | arr (xs : List String)
  | obj (r : Nat) (content : Json)

/-- JavaScript strict equality `===` on the values above.  `NaN` is unequal to
everything including itself; two array operands are distinct objects (the
source only reaches this comparison with a non-array left operand); objects
compare by reference token. -/
def jsStrictEq : JsValue → JsValue → Bool
  | .undefined, .undefined => true
  | .str a, .str b => a == b
  | .num a, .num b => a == b
  | .bool a, .bool b => a == b
  | .obj r _, .obj s _ => r == s
  | _, _ => false

/-- `JSON.stringify` of a property value; `undefined` serializes to no string
at all (`JSON.stringify(undefined)` is `undefined`), `NaN` to `"null"`. -/
def jsonStringifyVal : JsValue → Option String
  | .undefined => none
  | .nan => some "null"
  | .str s => some (jsStr s)
  | .num n => some (toString n)
  | .bool b => some (cond b "true" "false")
  | .arr xs => some ("[" ++ String.intercalate "," (xs.map jsStr) ++ "]")
  | .obj _ c => some c.serialize

/-- `currentLead[key]` — the property of a stored lead by name.  The stored
lead's `customFields` object carries identity token `0`; a distinct object
supplied by a caller carries a non-zero token. -/
def Lead.getField (l : Lead) (k : String) : JsValue :=
  if k = "id" then match l.id with | some n => .num n | none => .nan
  else if k = "isInPipeline" then .bool l.isInPipeline
  else if k = "name" then .str l.name
  else if k = "phone" then .str l.phone
  else if k = "alternatePhone" then .str l.alternatePhone
  else if k = "address" then .str l.address
  else if k = "labels" then .arr l.labels
  else if k = "stage" then .str l.stage
  else if k = "priority" then .str l.priority
  else if k = "requirement" then .str l.requirement
  else if k = "budget" then .num l.budget
  else if k = "about" then .str l.about
  else if k = "note" then .str l.note
  else if k = "listName" then .str l.listName
  else if k = "source" then .str l.source
  else if k = "customFields" then .obj 0 l.customFields
  else if k = "type" then .str l.type
  else if k = "assignedTo" then .str l.assignedTo
  else if k = "adminId" then .num l.adminId
  else if k = "email" then .str l.email
  else if k = "leadScore" then .num l.leadScore
  else if k = "lastNote" then .str l.lastNote
  else if k = "createdAt" then match l.createdAt with | some s => .str s | none => .undefined
  else if k = "updatedAt" then match l.updatedAt with | some s => .str s | none => .undefined
  else .undefined

/-- The per-entry callback of the `hasChanges` computation (lines 511-519): a
supplied field counts as a change when — for an array value — the serialized
forms differ, and otherwise when the values are not strictly equal. -/
def entryChanged (cur : Lead) (kv : String × JsValue) : Bool :=
  match kv.2 with
  | .arr xs => !(jsonStringifyVal (.arr xs) == jsonStringifyVal (cur.getField kv.1))
  | v => !(jsStrictEq v (cur.getField kv.1))

/-- `Object.entries(leadUpdate).some(...)` (lines 511-519). -/
def hasChanges (u : List (String × JsValue)) (cur : Lead) : Bool :=
  u.any (entryChanged cur)

/-- Assignment of one spread property `{...currentLead, ...leadUpdate}`.
`Partial<Lead>` is well-typed, so only shape-respecting assignments occur. -/
def Lead.setField (l : Lead) (k : String) (v : JsValue) : Lead :=
  if k = "id" then match v with | .num n => { l with id := some n } | _ => l
  else if k = "isInPipeline" then match v with | .bool b => { l with isInPipeline := b } | _ => l
  else if k = "name" then match v with | .str s => { l with name := s } | _ => l
  else if k = "phone" then match v with | .str s => { l with phone := s } | _ => l
  else if k = "alternatePhone" then match v with | .str s => { l with alternatePhone := s } | _ => l
  else if k = "address" then match v with | .str s => { l with address := s } | _ => l
  else if k = "labels" then match v with | .arr xs => { l with labels := xs } | _ => l
  else if k = "stage" then match v with | .str s => { l with stage := s } | _ => l
  else if k = "priority" then match v with | .str s => { l with priority := s } | _ => l
  else if k = "requirement" then match v with | .str s => { l with requirement := s } | _ => l
  else if k = "budget" then match v with | .num n => { l with budget := n } | _ => l
  else if k = "about" then match v with | .str s => { l with about := s } | _ => l
  else if k = "note" then match v with | .str s => { l with note := s } | _ => l
  else if k = "listName" then match v with | .str s => { l with listName := s } | _ => l
  else if k = "source" then match v with | .str s => { l with source := s } | _ => l
  else if k = "customFields" then match v with | .obj _ c => { l with customFields := c } | _ => l
  else if k = "type" then match v with | .str s => { l with type := s } | _ => l
  else if k = "assignedTo" then match v with | .str s => { l with assignedTo := s } | _ => l
  else if k = "adminId" then match v with | .num n => { l with adminId := n } | _ => l
  else if k = "email" then match v with | .str s => { l with email := s } | _ => l
  else if k = "leadScore" then match v with | .num n => { l with leadScore := n } | _ => l
  else if k = "lastNote" then match v with | .str s => { l with lastNote := s } | _ => l
  else l

/-- `{...currentLead, ...leadUpdate, updatedAt: new Date().toISOString()}`. -/
def applyUpdate (cur : Lead) (u : List (String × JsValue)) (nowIso : String) : Lead :=
  { u.foldl (fun l kv => l.setField kv.1 kv.2) cur with updatedAt := some nowIso }

/-- Embedding of `updateLead`.  Returns the new state and whether a network
request was issued.  When no supplied field differs, the function returns
before any network interaction and touches nothing.  On a confirmed update the
record is merged in place and the cache is invalidated (with or without the
broadcast event — both branches reset the slot). -/
def updateLead (st : AppState) (id : Int) (u : List (String × JsValue))
    (resp : ModifyResponse) (nowIso : String) : AppState × Bool :=
  match st.leads.find? (fun l => l.id == some id) with
  | none => ({ st with error := some "Lead not found" }, false)
  | some cur =>
      if hasChanges u cur then
        match resp with
        | .ok =>
            let updated := applyUpdate cur u nowIso
            let st' := { st with
              leads := st.leads.map (fun l => if l.id == some id then updated else l) }
            (invalidateLeadsCache st', true)
        | .fail m =>
            ({ st with error := some (if m = "" then "Failed to update lead" else m) }, true)
        | .transportFail =>
            ({ st with error := some "Failed to update lead" }, true)
      else
        (st, false)

/-! ## Concrete fixtures for counterexamples and witnesses -/

/-- Modelled from the spec: a small stage catalog with the documented
"Fresh Lead" fallback value (the real catalog module is not in the sources). -/
def stageOptionsM : List Opt :=
  [⟨"Fresh Lead", "Fresh Lead", "fresh_lead"⟩,
   ⟨"In Pipeline", "In Pipeline", "in_pipeline"⟩]

/-- Modelled from the spec: a small priority catalog with the documented
"General" fallback value. -/
def priorityOptionsM : List Opt :=
  [⟨"General", "General", "general"⟩, ⟨"High", "High", "high"⟩]

/-- A stage filter. -/
def fStage : FilterOption := ⟨"stage", "=", .str "Fresh Lead"⟩

/-- A minimum-budget filter. -/
def fBudgetLo : FilterOption := ⟨"budget", ">=", .num 1⟩

/-- A maximum-budget filter (same field name as `fBudgetLo`). -/
def fBudgetHi : FilterOption := ⟨"budget", "<=", .num 5⟩

/-- A well-formed lead record with id 7, as delivered by the API. -/
def lead7 : Lead :=
  transformApiLeadToLead stageOptionsM priorityOptionsM
    { id := some "7", name := some "Alice", labels := some "a,b",
      budget := some "100", stage := some "Fresh Lead" }

/-- A well-formed lead record with id 8. -/
def lead8 : Lead :=
  transformApiLeadToLead stageOptionsM priorityOptionsM
    { id := some "8", name := some "Bob", stage := some "In Pipeline" }

/-- A todo owned by lead 7. -/
def todo3 : Todo :=
  { id := some 3, leadId := some 7, type := "Todo", description := "call",
    responseNote := "", status := "Pending", dateTime := none,
    participants := [], createdAt := none, updatedAt := none }

/-- A todo owned by lead 8. -/
def todo5 : Todo :=
  { id := some 5, leadId := some 8, type := "Todo", description := "mail",
    responseNote := "", status := "Pending", dateTime := none,
    participants := [], createdAt := none, updatedAt := none }

/-- An empty provider state. -/
def baseState : AppState :=
  { leads := [], todos := [], leadFilters := [], activeLeadId := none,
    cache := emptyCacheSlot, error := none }

/-- A state holding a stage filter appended before a budget filter. -/
def stAppendOrder : AppState :=
  { baseState with leadFilters := [fStage, fBudgetLo] }

/-- A state whose cache slot holds a fresh page stored under the key of the
default parameters with an empty filter list. -/
def stCachedDefault : AppState :=
  { baseState with
      cache := { data := [lead7],
                 params := some (fetchCacheKey 1 20 "created_at" "desc" "" []),
                 timestamp := 0, total := some 1 } }

/-- A state holding one stage filter. -/
def stFiltered : AppState :=
  { baseState with leadFilters := [fStage] }

/-- The fully spelled-out default parameters: the same logical request as the
empty parameter object. -/
def pFull : FetchParams :=
  { page := some 1, perPage := some 20, sortField := some "created_at",
    sortOrder := some "desc", search := some "", currentFilters := some [] }

/-- A state with two leads, a todo under each, and lead 7 selected. -/
def stDelete : AppState :=
  { baseState with
      leads := [lead7, lead8]
      todos := [todo3, todo5]
      activeLeadId := some 7 }

/-- A state holding only lead 7. -/
def stUpdate : AppState := { baseState with leads := [lead7] }

/-- An update that re-supplies lead 7's current name, labels and the stored
customFields object (reference token 0). -/
def uNoChange : List (String × JsValue) :=
  [("name", .str "Alice"), ("labels", .arr ["a", "b"]),
   ("customFields", .obj 0 lead7.customFields)]

/-- A malformed API record: non-numeric id and budget, non-JSON custom
fields, unrecognized stage. -/
def badRecord : ApiRecord :=
  { id := some "abc", budget := some "x", custom_fields := some "not json",
    stage := some "Weird Stage" }

/-- A record whose `labels` field holds the number 1 — truthy, but without a
`.split` method. -/
def badRecordNumLabels : ApiRecordV :=
  { labels := some (.num 1) }

/-- A record full of unexpected-but-survivable field types: boolean budget,
falsy numeric labels, object-valued custom fields, numeric stage. -/
def goodRecordV : ApiRecordV :=
  { id := some (.str "abc"), budget := some (.bool true),
    labels := some (.num 0), custom_fields := some .obj,
    stage := some (.num 5) }

/-! ## Claims -/

/-- When the cache-hit condition fails, `fetchLeads` always reaches the
network branch. -/
lemma fetchLeads_not_hit (sOpts pOpts : List Opt) (st : AppState) (p : FetchParams)
    (now : Int) (resp : FetchResponse)
    (h : ¬ (st.cache.data.length > 0 ∧
            st.cache.params = some (cacheKeyOf (p.page.getD 1) (p.perPage.getD 20)
              (p.sortField.getD "created_at") (p.sortOrder.getD "desc") (p.search.getD "")
              (sortFilters (p.currentFilters.getD st.leadFilters))) ∧
            now - st.cache.timestamp < 2 * 60 * 1000)) :
    (fetchLeads sOpts pOpts st p now resp).2.isNetwork = true := by
  unfold fetchLeads
  dsimp only
  rw [if_neg h]
  cases resp <;> rfl

/-- C2: for every stored cache entry, a `fetchLeads` call whose computed key
equals the stored key still misses the cache and issues a remote request once
the elapsed time since storage is two minutes or more. -/
theorem C2_theorem (sOpts pOpts : List Opt) (st : AppState) (p : FetchParams)
    (now : Int) (resp : FetchResponse)
    (_hkey : st.cache.params = some (fetchCacheKey (p.page.getD 1) (p.perPage.getD 20)
      (p.sortField.getD "created_at") (p.sortOrder.getD "desc") (p.search.getD "")
      (p.currentFilters.getD st.leadFilters)))
    (hstale : now - st.cache.timestamp ≥ 2 * 60 * 1000) :
    (fetchLeads sOpts pOpts st p now resp).2.isNetwork = true := by
  apply fetchLeads_not_hit
  rintro ⟨-, -, h3⟩
  omega

/-- C2 witness: a concrete two-minute-old entry with a matching key misses. -/
theorem C2_witness :
    (fetchLeads [] [] { baseState with
        cache := { data := [lead7],
                   params := some (fetchCacheKey 1 20 "created_at" "desc" "" []),
                   timestamp := 0, total := some 1 } }
      {} 120000 (.ok [] none)).2.isNetwork = true :=
  C2_theorem [] [] _ {} 120000 (.ok [] none) (by rfl) (by decide)

/-- C10: a cache hit additionally requires the stored page to be non-empty —
with a matching key and a fresh entry, an empty stored result list still forces
a remote request. -/
theorem C10_theorem (sOpts pOpts : List Opt) (st : AppState) (p : FetchParams)
    (now : Int) (resp : FetchResponse)
    (_hkey : st.cache.params = some (fetchCacheKey (p.page.getD 1) (p.perPage.getD 20)
      (p.sortField.getD "created_at") (p.sortOrder.getD "desc") (p.search.getD "")
      (p.currentFilters.getD st.leadFilters)))
    (_hfresh : now - st.cache.timestamp < 2 * 60 * 1000)
    (hempty : st.cache.data = []) :
    (fetchLeads sOpts pOpts st p now resp).2.isNetwork = true := by
  apply fetchLeads_not_hit
  rintro ⟨h1, -, -⟩
  rw [hempty] at h1
  exact absurd h1 (by simp)

/-- C10 witness: a fresh, key-matching entry whose stored page is empty
misses. -/
theorem C10_witness :
    (fetchLeads [] [] { baseState with
        cache := { data := [],
                   params := some (fetchCacheKey 1 20 "created_at" "desc" "" []),
                   timestamp := 0, total := some 0 } }
      {} 1000 (.ok [] none)).2.isNetwork = true :=
  C10_theorem [] [] _ {} 1000 (.ok [] none) (by rfl) (by decide) (by rfl)

/-- C9: the claim says computing the cache key leaves the held filter list in
append order, so that `removeLeadFilter 0` removes the first-appended filter.
The source sorts the held array in place (`currentFilters.sort(...)` on the
state's array): after one defaulted `fetchLeads` the list `[stage, budget]`
has become `[budget, stage]`, and removing index 0 deletes the budget filter
that was appended second — the stage filter appended first survives. -/
theorem C9_theorem :
    (fetchLeads [] [] stAppendOrder {} 0 (.ok [] none)).1.leadFilters =
      [fBudgetLo, fStage] ∧
    stAppendOrder.leadFilters = [fStage, fBudgetLo] ∧
    (removeLeadFilter (fetchLeads [] [] stAppendOrder {} 0 (.ok [] none)).1 0).leadFilters =
      [fStage] :=
  ⟨by decide, rfl, by decide⟩

/-- C8 counterexample: in `src/src/contexts/AppContext.tsx`, `clearLeadFilters`
empties the filter list but does not touch the cache slot, so a following
`fetchLeads` with the cached key inside the freshness window is served from the
cache and issues no remote request — contradicting the claim that every
post-clear fetch misses. -/
theorem C8_counterexample :
    (clearLeadFilters stCachedDefault).leadFilters = [] ∧
    (clearLeadFilters stCachedDefault).cache = stCachedDefault.cache ∧
    (fetchLeads [] [] (clearLeadFilters stCachedDefault) {} 0 (.ok [] none)).2.isNetwork =
      false :=
  ⟨rfl, rfl, by decide⟩

/-- C8 (amended): only the divergent provider variant's `clearLeadFilters`
clears the cache slot (after which any `fetchLeads` misses and issues a remote
request); the `AppContext.tsx` variant empties the filter list and leaves the
cache slot unchanged. -/
theorem C8_theorem (st : AppState) :
    (clearLeadFilters st).leadFilters = [] ∧
    (clearLeadFilters st).cache = st.cache ∧
    (clearLeadFilters_variant st).leadFilters = [] ∧
    (clearLeadFilters_variant st).cache = emptyCacheSlot ∧
    (∀ (sOpts pOpts : List Opt) (p : FetchParams) (now : Int) (resp : FetchResponse),
      (fetchLeads sOpts pOpts (clearLeadFilters_variant st) p now resp).2.isNetwork = true) := by
  refine ⟨rfl, rfl, rfl, rfl, ?_⟩
  intro sOpts pOpts p now resp
  apply fetchLeads_not_hit
  rintro ⟨h1, -, -⟩
  simp [clearLeadFilters_variant, emptyCacheSlot] at h1

/-- C4: the claim says deduplication keys are equal iff the invocations denote
the same logical request including the effective filters.  The source keys on
`JSON.stringify` of the raw params object: two defaulted invocations under
different filter states produce the SAME key `leads-\x7b\x7d` although their
effective filters differ, and the same logical request expressed once by
defaults and once explicitly produces DIFFERENT keys although `fetchLeads`
stores both under the same canonical cache key. -/
theorem C4_theorem :
    (fetchLeads [] [] stFiltered {} 0 (.ok [] none)).2 =
      .network "leads-\x7b\x7d" (.ok [] 0) ∧
    (fetchLeads [] [] baseState {} 0 (.ok [] none)).2 =
      .network "leads-\x7b\x7d" (.ok [] 0) ∧
    stFiltered.leadFilters ≠ baseState.leadFilters ∧
    (fetchLeads [] [] baseState pFull 0 (.ok [] none)).2 =
      .network (createRequestKey "leads" (stringifyParams pFull)) (.ok [] 0) ∧
    createRequestKey "leads" (stringifyParams pFull) ≠ "leads-\x7b\x7d" ∧
    (fetchLeads [] [] baseState pFull 0 (.ok [] none)).1.cache.params =
      (fetchLeads [] [] baseState {} 0 (.ok [] none)).1.cache.params :=
  ⟨rfl, rfl, by decide, rfl, by decide, rfl⟩

/-- Unfolding of `charListLe` on two non-empty lists. -/
lemma charListLe_cons_iff (a b : Char) (as bs : List Char) :
    charListLe (a :: as) (b :: bs) = true ↔
      a < b ∨ (a = b ∧ charListLe as bs = true) := by
  by_cases h1 : a < b
  · simp [charListLe, h1]
  · by_cases h2 : a = b
    · simp [charListLe, h1, h2]
    · simp [charListLe, h1, h2]

/-- `charListLe` is total. -/
lemma charListLe_total : ∀ as bs : List Char,
    charListLe as bs = true ∨ charListLe bs as = true := by
  intro as
  induction as with
  | nil => intro bs; left; rfl
  | cons a t ih =>
    intro bs
    cases bs with
    | nil => right; rfl
    | cons b s =>
      rcases lt_trichotomy a b with h | h | h
      · left; exact (charListLe_cons_iff a b t s).mpr (Or.inl h)
      · rcases ih s with h' | h'
        · left; exact (charListLe_cons_iff a b t s).mpr (Or.inr ⟨h, h'⟩)
        · right; exact (charListLe_cons_iff b a s t).mpr (Or.inr ⟨h.symm, h'⟩)
      · right; exact (charListLe_cons_iff b a s t).mpr (Or.inl h)

/-- `charListLe` is transitive. -/
lemma charListLe_trans : ∀ as bs cs : List Char,
    charListLe as bs = true → charListLe bs cs = true →
    charListLe as cs = true := by
  intro as
  induction as with
  | nil => intro bs cs _ _; rfl
  | cons a t ih =>
    intro bs cs hab hbc
    cases bs with
    | nil => simp [charListLe] at hab
    | cons b s =>
      cases cs with
      | nil => simp [charListLe] at hbc
      | cons c u =>
        rcases (charListLe_cons_iff a b t s).mp hab with h1 | ⟨h1, hr1⟩ <;>
          rcases (charListLe_cons_iff b c s u).mp hbc with h2 | ⟨h2, hr2⟩
        · exact (charListLe_cons_iff a c t u).mpr (Or.inl (lt_trans h1 h2))
        · exact (charListLe_cons_iff a c t u).mpr (Or.inl (h2 ▸ h1))
        · exact (charListLe_cons_iff a c t u).mpr (Or.inl (h1 ▸ h2))
        · exact (charListLe_cons_iff a c t u).mpr (Or.inr ⟨h1.trans h2, ih s u hr1 hr2⟩)

/-- `charListLe` is antisymmetric. -/
lemma charListLe_antisymm : ∀ as bs : List Char,
    charListLe as bs = true → charListLe bs as = true → as = bs := by
  intro as
  induction as with
  | nil =>
    intro bs _ hba
    cases bs with
    | nil => rfl
    | cons b s => simp [charListLe] at hba
  | cons a t ih =>
    intro bs hab hba
    cases bs with
    | nil => simp [charListLe] at hab
    | cons b s =>
      rcases (charListLe_cons_iff a b t s).mp hab with h1 | ⟨h1, hr1⟩ <;>
        rcases (charListLe_cons_iff b a s t).mp hba with h2 | ⟨h2, hr2⟩
      · exact absurd h1 (lt_asymm h2)
      · subst h2; exact absurd h1 (lt_irrefl _)
      · subst h1; exact absurd h2 (lt_irrefl _)
      · rw [h1, ih s hr1 hr2]

instance : IsTotal FilterOption fieldLeP :=
  ⟨fun a b => charListLe_total a.field.data b.field.data⟩

instance : IsTrans FilterOption fieldLeP :=
  ⟨fun _ _ _ => charListLe_trans _ _ _⟩

/-- Two filters below each other in the comparator share a field name. -/
lemma fieldLeP_antisymm {a b : FilterOption} (hab : fieldLeP a b)
    (hba : fieldLeP b a) : a.field = b.field :=
  String.ext (charListLe_antisymm _ _ hab hba)

/-- A list sorted by field name whose field names are pairwise distinct is the
only sorted arrangement of its elements. -/
lemma eq_of_perm_of_sorted_of_nodupField :
    ∀ l1 l2 : List FilterOption, l1.Perm l2 →
      l1.Pairwise fieldLeP → l2.Pairwise fieldLeP →
      (l1.map FilterOption.field).Nodup → l1 = l2 := by
  intro l1
  induction l1 with
  | nil =>
    intro l2 hp _ _ _
    exact (hp.symm.eq_nil).symm
  | cons a t ih =>
    intro l2 hp hs1 hs2 hnd
    cases l2 with
    | nil => exact absurd hp.eq_nil (by simp)
    | cons b s =>
      have hnd' : a.field ∉ t.map FilterOption.field ∧ (t.map FilterOption.field).Nodup := by
        rw [List.map_cons, List.nodup_cons] at hnd
        exact hnd
      have hab : a = b := by
        by_contra hne
        have ha2 : a ∈ b :: s := hp.subset (List.mem_cons_self a t)
        have hb1 : b ∈ a :: t := hp.symm.subset (List.mem_cons_self b s)
        have has : a ∈ s := by
          rcases List.mem_cons.mp ha2 with h | h
          · exact absurd h hne
          · exact h
        have hbt : b ∈ t := by
          rcases List.mem_cons.mp hb1 with h | h
          · exact absurd h.symm hne
          · exact h
        have h1 : fieldLeP a b := (List.pairwise_cons.mp hs1).1 b hbt
        have h2 : fieldLeP b a := (List.pairwise_cons.mp hs2).1 a has
        have hmem : a.field ∈ t.map FilterOption.field := by
          rw [fieldLeP_antisymm h1 h2]
          exact List.mem_map_of_mem FilterOption.field hbt
        exact hnd'.1 hmem
      subst hab
      rw [ih s hp.cons_inv (List.pairwise_cons.mp hs1).2
        (List.pairwise_cons.mp hs2).2 hnd'.2]

/-- C1 counterexample: two parameter sets whose filter lists are permutations
of each other — two budget filters sharing the field name "budget", swapped —
produce different cache keys, because the stable sort only orders by field
name and keeps the original relative order of same-field filters. -/
theorem C1_counterexample :
    [fBudgetLo, fBudgetHi].Perm [fBudgetHi, fBudgetLo] ∧
    fetchCacheKey 1 20 "created_at" "desc" "" [fBudgetLo, fBudgetHi] ≠
      fetchCacheKey 1 20 "created_at" "desc" "" [fBudgetHi, fBudgetLo] :=
  ⟨by decide, by decide⟩

/-- C1 (amended): for parameter sets equal except for the order of the filters
list, the cache key computed by `fetchLeads` is the same string — provided no
two filters share a field name; reordering filters with a repeated field name
can change the key. -/
theorem C1_theorem (page perPage : Nat) (sortField sortOrder search : String)
    (fs1 fs2 : List FilterOption) (hperm : fs1.Perm fs2)
    (hnd : (fs1.map FilterOption.field).Nodup) :
    fetchCacheKey page perPage sortField sortOrder search fs1 =
      fetchCacheKey page perPage sortField sortOrder search fs2 := by
  have hp1 : (sortFilters fs1).Perm fs1 := List.perm_insertionSort fieldLeP fs1
  have hp2 : (sortFilters fs2).Perm fs2 := List.perm_insertionSort fieldLeP fs2
  have hsorted : sortFilters fs1 = sortFilters fs2 :=
    eq_of_perm_of_sorted_of_nodupField _ _ ((hp1.trans hperm).trans hp2.symm)
      (List.sorted_insertionSort fieldLeP fs1)
      (List.sorted_insertionSort fieldLeP fs2)
      (((hp1.map FilterOption.field).nodup_iff).mpr hnd)
  unfold fetchCacheKey
  rw [hsorted]

/-- C1 witness: reordering a stage filter and a budget filter (distinct field
names) leaves the concrete cache key unchanged. -/
theorem C1_witness :
    fetchCacheKey 1 20 "created_at" "desc" "" [fStage, fBudgetLo] =
      fetchCacheKey 1 20 "created_at" "desc" "" [fBudgetLo, fStage] :=
  C1_theorem 1 20 "created_at" "desc" "" [fStage, fBudgetLo] [fBudgetLo, fStage]
    (by decide) (by decide)

/-- C7: after a confirmed `deleteLead id`, no lead with that id and no todo
referencing it remain, every other lead and todo survives (in order), and the
active selection is cleared exactly when it pointed at the deleted id; on a
reported failure or a transport error the state is untouched. -/
theorem C7_theorem (st : AppState) (id : Int) :
    (deleteLead st id .ok).leads = st.leads.filter (fun l => l.id != some id) ∧
    (∀ l ∈ (deleteLead st id .ok).leads, l.id ≠ some id) ∧
    (∀ l ∈ st.leads, l.id ≠ some id → l ∈ (deleteLead st id .ok).leads) ∧
    (deleteLead st id .ok).todos = st.todos.filter (fun t => t.leadId != some id) ∧
    (∀ t ∈ (deleteLead st id .ok).todos, t.leadId ≠ some id) ∧
    (∀ t ∈ st.todos, t.leadId ≠ some id → t ∈ (deleteLead st id .ok).todos) ∧
    (deleteLead st id .ok).activeLeadId =
      (if st.activeLeadId = some id then none else st.activeLeadId) ∧
    (∀ m, deleteLead st id (.fail m) = st) ∧
    deleteLead st id .transportFail = st := by
  refine ⟨rfl, ?_, ?_, rfl, ?_, ?_, rfl, fun _ => rfl, rfl⟩
  · intro l hl
    exact bne_iff_ne.mp (List.mem_filter.mp hl).2
  · intro l hl hne
    exact List.mem_filter.mpr ⟨hl, bne_iff_ne.mpr hne⟩
  · intro t ht
    exact bne_iff_ne.mp (List.mem_filter.mp ht).2
  · intro t ht hne
    exact List.mem_filter.mpr ⟨ht, bne_iff_ne.mpr hne⟩

/-- C7 witness: deleting lead 7 from a concrete state removes lead 7 and its
todo, keeps lead 8 and its todo, and clears the selection. -/
theorem C7_witness :
    lead8 ∈ (deleteLead stDelete 7 .ok).leads ∧
    todo5 ∈ (deleteLead stDelete 7 .ok).todos ∧
    (deleteLead stDelete 7 .ok).activeLeadId =
      (if stDelete.activeLeadId = some 7 then none else stDelete.activeLeadId) :=
  ⟨(C7_theorem stDelete 7).2.2.1 lead8
      (List.mem_cons_of_mem _ (List.mem_cons_self _ _)) (by decide),
   (C7_theorem stDelete 7).2.2.2.2.2.1 todo5
      (List.mem_cons_of_mem _ (List.mem_cons_self _ _)) (by decide),
   (C7_theorem stDelete 7).2.2.2.2.2.2.1⟩

/-- C6: for a lead present in the collection, `updateLead` with an update
whose every supplied field equals the stored value — arrays compared by their
serialized form, everything else by strict equality — issues no network
request and returns the state unchanged (collection, cache slot and selection
included), whatever the remote would have answered. -/
theorem C6_theorem (st : AppState) (id : Int) (u : List (String × JsValue))
    (resp : ModifyResponse) (nowIso : String) (cur : Lead)
    (hfind : st.leads.find? (fun l => l.id == some id) = some cur)
    (hsame : ∀ kv ∈ u, entryChanged cur kv = false) :
    updateLead st id u resp nowIso = (st, false) := by
  have hch : hasChanges u cur = false := by
    unfold hasChanges
    rw [List.any_eq_false]
    intro kv hkv
    rw [hsame kv hkv]
    simp
  simp [updateLead, hfind, hch]

/-- C6 witness: the concrete no-op update leaves the concrete state untouched
and issues no request. -/
theorem C6_witness :
    updateLead stUpdate 7 uNoChange .ok "2025-01-01T00:00:00Z" = (stUpdate, false) :=
  C6_theorem stUpdate 7 uNoChange .ok "2025-01-01T00:00:00Z" lead7
    (by rfl) (by decide)

/-- C3: while a request under key `k` is pending, `makeRequest k` hands every
caller the same pending promise and does not start the underlying operation
again; when no request is pending a single underlying operation starts and is
registered under `k`; and settling — fulfilment and rejection alike — removes
`k` from the in-flight map so a later call starts fresh. -/
theorem C3_theorem (s : DedupState) (key : String) :
    (∀ pid, lookupReq s key = some pid → makeRequest s key = (s, pid, false)) ∧
    (lookupReq s key = none →
      (makeRequest s key).2.2 = true ∧
      lookupReq (makeRequest s key).1 key = some (makeRequest s key).2.1 ∧
      makeRequest (makeRequest s key).1 key =
        ((makeRequest s key).1, (makeRequest s key).2.1, false)) ∧
    (∀ outcome, lookupReq (settleRequest s key outcome) key = none) := by
  refine ⟨?_, ?_, ?_⟩
  · intro pid h
    unfold makeRequest
    rw [h]
  · intro h
    have hm : makeRequest s key =
        ({ inflight := s.inflight ++ [(key, s.nextId)], nextId := s.nextId + 1 },
         s.nextId, true) := by
      unfold makeRequest
      rw [h]
    have hnone : s.inflight.find? (fun kv => kv.1 == key) = none := by
      cases hfind : s.inflight.find? (fun kv => kv.1 == key) with
      | none => rfl
      | some kv =>
        unfold lookupReq at h
        rw [hfind] at h
        simp at h
    have hlook : lookupReq
        { inflight := s.inflight ++ [(key, s.nextId)], nextId := s.nextId + 1 }
        key = some s.nextId := by
      unfold lookupReq
      rw [List.find?_append, hnone]
      simp
    refine ⟨by rw [hm], by rw [hm]; exact hlook, ?_⟩
    rw [hm]
    unfold makeRequest
    rw [hlook]
  · intro outcome
    have hfil : ((s.inflight.filter (fun kv => kv.1 != key)).find?
        (fun kv => kv.1 == key)) = none := by
      rw [List.find?_eq_none]
      intro kv hkv
      have h2 := (List.mem_filter.mp hkv).2
      simp only [bne_iff_ne, ne_eq] at h2
      simp [h2]
    unfold lookupReq settleRequest
    rw [hfil]
    rfl

/-- C3 witness: starting from an empty map, a first call starts the operation
and a second call under the same key shares promise 0 without starting
another; settling then clears the key. -/
theorem C3_witness :
    makeRequest (makeRequest ⟨[], 0⟩ "leads-\x7b\x7d").1 "leads-\x7b\x7d" =
      ((makeRequest ⟨[], 0⟩ "leads-\x7b\x7d").1,
       (makeRequest ⟨[], 0⟩ "leads-\x7b\x7d").2.1, false) ∧
    lookupReq (settleRequest ⟨[("leads-\x7b\x7d", 0)], 1⟩ "leads-\x7b\x7d" false)
      "leads-\x7b\x7d" = none :=
  ⟨((C3_theorem ⟨[], 0⟩ "leads-\x7b\x7d").2.1 (by rfl)).2.2,
   (C3_theorem ⟨[("leads-\x7b\x7d", 0)], 1⟩ "leads-\x7b\x7d").2.2 false⟩

/-- The enum resolution falls back whenever the raw value is absent, not a
string, or a string matching no catalog entry by value or wire value. -/
lemma resolveEnumV_fallback (opts : List Opt) (v : Option ApiValue) (fb : String)
    (h : ∀ o ∈ opts, ∀ s, v = some (.str s) → o.value ≠ s ∧ o.apiValue ≠ s) :
    resolveEnumV opts v fb = fb := by
  cases v with
  | none => rfl
  | some av =>
    cases av with
    | str s =>
      have h1 : (opts.any fun o => o.value == s) = false := by
        rw [List.any_eq_false]
        intro o ho
        have h' := (h o ho s rfl).1
        simp [h']
      have h2 : opts.find? (fun o => o.apiValue == s) = none := by
        rw [List.find?_eq_none]
        intro o ho
        have h' := (h o ho s rfl).2
        simp [h']
      simp [resolveEnumV, h1, h2, jsOrD]
    | num n => rfl
    | bool b => rfl
    | null => rfl
    | obj => rfl

/-- C5 counterexample: the claim asserts totality — including on fields of
unexpected type — with `id` defaulted to 0 on a failed parse.  The source
(a) computes `id = parseInt(apiLead.id)` with no fallback, so the malformed
record yields `NaN` (modelled `none`), not 0, and (b) is not even total on
unexpected types: a record whose `labels` field holds the number 1 is truthy
but has no `.split`, so `apiLead.labels.split(",")` throws a TypeError. -/
theorem C5_counterexample :
    (transformApiLeadToLead stageOptionsM priorityOptionsM badRecord).id = none ∧
    (transformApiLeadToLead stageOptionsM priorityOptionsM badRecord).id ≠ some 0 ∧
    transformApiLeadToLeadV stageOptionsM priorityOptionsM badRecordNumLabels =
      .error "TypeError: apiLead.labels.split is not a function" :=
  ⟨rfl, by decide, rfl⟩

/-- C5 (amended): `transformApiLeadToLead` returns a Lead without raising for
every record whose `labels` field is absent, falsy, or a string; on such
records `budget`, `adminId` and `leadScore` default to 0 on a failed parse,
missing text fields default to `""`, absent or falsy `labels` to `[]`,
absent, falsy or unparsable `custom_fields` to the empty mapping, and an
unrecognized or non-string stage / priority to "Fresh Lead" / "General".
But `id` is NOT defaulted — a failed parse leaves it `NaN` — and the function
is NOT total on fields of unexpected type: a truthy non-string `labels` value
makes `apiLead.labels.split(",")` throw a TypeError. -/
theorem C5_theorem (stageOpts priorityOpts : List Opt) (r : ApiRecordV) :
    ((∃ ls, labelsSplitV r.labels = .ok ls) →
      ∃ l, transformApiLeadToLeadV stageOpts priorityOpts r = .ok l) ∧
    (∀ v, r.labels = some v → v.truthy = true → (∀ s, v ≠ .str s) →
      transformApiLeadToLeadV stageOpts priorityOpts r =
        .error "TypeError: apiLead.labels.split is not a function") ∧
    (∀ l, transformApiLeadToLeadV stageOpts priorityOpts r = .ok l →
      (jsParseIntV r.budget = none → l.budget = 0) ∧
      (jsParseIntV r.admin_id = none → l.adminId = 0) ∧
      (jsParseIntV r.lead_scrore = none → l.leadScore = 0) ∧
      (jsParseIntV r.id = none → l.id = none) ∧
      (r.name = none → l.name = .str "") ∧
      (r.phone = none → l.phone = .str "") ∧
      (r.address = none → l.address = .str "") ∧
      ((r.labels = none ∨ (∃ v, r.labels = some v ∧ v.truthy = false)) →
        l.labels = []) ∧
      ((r.custom_fields = none ∨ (∃ v, r.custom_fields = some v ∧
          (v.truthy = false ∨ jsonParse v.toJsString = none))) →
        l.customFields = Json.obj []) ∧
      ((∀ o ∈ stageOpts, ∀ s, r.stage = some (.str s) →
          o.value ≠ s ∧ o.apiValue ≠ s) → l.stage = "Fresh Lead") ∧
      ((∀ o ∈ priorityOpts, ∀ s, r.priority = some (.str s) →
          o.value ≠ s ∧ o.apiValue ≠ s) → l.priority = "General")) := by
  refine ⟨?_, ?_, ?_⟩
  · rintro ⟨ls, hls⟩
    unfold transformApiLeadToLeadV
    rw [hls]
    exact ⟨_, rfl⟩
  · intro v hv htr hnstr
    have herr : labelsSplitV r.labels =
        .error "TypeError: apiLead.labels.split is not a function" := by
      rw [hv]
      cases v with
      | str s => exact absurd rfl (hnstr s)
      | num n => simp [labelsSplitV, htr]
      | bool b => simp [labelsSplitV, htr]
      | null => simp [labelsSplitV, htr]
      | obj => simp [labelsSplitV, htr]
    unfold transformApiLeadToLeadV
    rw [herr]
  · intro l hl
    cases hls : labelsSplitV r.labels with
    | error e =>
      unfold transformApiLeadToLeadV at hl
      rw [hls] at hl
      simp at hl
    | ok ls =>
      unfold transformApiLeadToLeadV at hl
      rw [hls] at hl
      injection hl with hl
      subst hl
      refine ⟨?_, ?_, ?_, ?_, ?_, ?_, ?_, ?_, ?_, ?_, ?_⟩
      · intro h; simp [h]
      · intro h; simp [h]
      · intro h; simp [h]
      · intro h; simp [h]
      · intro h; simp [h, jsOrDV]
      · intro h; simp [h, jsOrDV]
      · intro h; simp [h, jsOrDV]
      · rintro (h | ⟨v, hv, htr⟩)
        · rw [h] at hls
          simp only [labelsSplitV, Except.ok.injEq] at hls
          simp [hls]
        · rw [hv] at hls
          simp only [labelsSplitV, htr, Bool.false_eq_true, if_false,
            Except.ok.injEq] at hls
          simp [hls]
      · rintro (h | ⟨v, hv, hcase⟩)
        · simp [h]
        · rcases hcase with htr | hparse
          · simp [hv, htr]
          · by_cases htr : v.truthy = true
            · simp [hv, htr, hparse]
            · have hf : v.truthy = false := by
                revert htr
                cases v.truthy <;> simp
              simp [hv, hf]
      · intro h
        exact resolveEnumV_fallback stageOpts r.stage "Fresh Lead" h
      · intro h
        exact resolveEnumV_fallback priorityOpts r.priority "General" h

/-- C5 witness: the numeric-labels record throws the TypeError, while the
record of survivable unexpected types succeeds with the documented defaults
and an undefaulted `NaN` id. -/
theorem C5_witness :
    transformApiLeadToLeadV stageOptionsM priorityOptionsM badRecordNumLabels =
      .error "TypeError: apiLead.labels.split is not a function" ∧
    (transformApiLeadToLeadV stageOptionsM priorityOptionsM goodRecordV).map
      LeadV.budget = .ok 0 ∧
    (transformApiLeadToLeadV stageOptionsM priorityOptionsM goodRecordV).map
      LeadV.id = .ok none ∧
    (transformApiLeadToLeadV stageOptionsM priorityOptionsM goodRecordV).map
      LeadV.stage = .ok "Fresh Lead" := by
  refine ⟨?_, ?_, ?_, ?_⟩
  · exact (C5_theorem stageOptionsM priorityOptionsM badRecordNumLabels).2.1
      (.num 1) rfl rfl (fun s h => ApiValue.noConfusion h)
  · obtain ⟨l, hl⟩ :=
      (C5_theorem stageOptionsM priorityOptionsM goodRecordV).1 ⟨[], rfl⟩
    have hb :=
      ((C5_theorem stageOptionsM priorityOptionsM goodRecordV).2.2 l hl).1 rfl
    rw [hl]
    simp [Except.map, hb]
  · obtain ⟨l, hl⟩ :=
      (C5_theorem stageOptionsM priorityOptionsM goodRecordV).1 ⟨[], rfl⟩
    have hb :=
      ((C5_theorem stageOptionsM priorityOptionsM goodRecordV).2.2 l hl).2.2.2.1 rfl
    rw [hl]
    simp [Except.map, hb]
  · obtain ⟨l, hl⟩ :=
      (C5_theorem stageOptionsM priorityOptionsM goodRecordV).1 ⟨[], rfl⟩
    have hb :=
      ((C5_theorem stageOptionsM priorityOptionsM goodRecordV).2.2 l
          hl).2.2.2.2.2.2.2.2.2.1
        (by intro o ho s hs; simp [goodRecordV] at hs)
    rw [hl]
    simp [Except.map, hb]

end SalesCRM
